import Mathlib

/-!
Verification development for the CreatiVision Controller interface firmware
(src/src/main.c). The definitions below are a shallow embedding of the C
code: 8-bit machine values are modelled as Nat (all operations involved stay
below 256 or mask explicitly, matching the C uint8_t semantics where it
matters), the static variables of each function become explicit state
records, and each hardware call to MT8816_Switch is recorded as an element
of a call list.
-/

/-! ## PS/2 scan code ring buffer (main.c lines 77-80, 856-871, 1339-1347) -/

/-- State of the PS/2 scan code ring buffer: the byte array (modelled as a
total function from index to stored byte), and the Start and End indices.
Size is 254 (PS2_ScanCodeBuffer_Size). -/
structure PS2Buf where
  mem : Nat → Nat
  start : Nat
  endIdx : Nat

def PS2_ScanCodeBuffer_Size : Nat := 254

/-- Initial buffer: all statics zero-initialized. -/
def emptyPS2Buf : PS2Buf := ⟨fun _ => 0, 0, 0⟩

/-- The producer push path of PS2_Interrupt (main.c lines 1339-1347):
store the byte at End, advance End with wrap at 254, and if End has caught
Start, advance Start with wrap (drop the oldest byte). -/
def PS2_Buffer_push (b : PS2Buf) (v : Nat) : PS2Buf :=
  let mem1 := fun i => if i = b.endIdx then v else b.mem i
  let e1 := b.endIdx + 1
  let e2 := if e1 = PS2_ScanCodeBuffer_Size then 0 else e1
  if e2 = b.start then
    let s1 := b.start + 1
    let s2 := if s1 = PS2_ScanCodeBuffer_Size then 0 else s1
    { mem := mem1, start := s2, endIdx := e2 }
  else
    { mem := mem1, start := b.start, endIdx := e2 }

/-- get_PS2_ScanCode (main.c lines 856-871): returns 0 if the buffer is
empty, otherwise the byte at Start, advancing Start with wrap at 254.
Returns the value together with the updated buffer. -/
def get_PS2_ScanCode (b : PS2Buf) : Nat × PS2Buf :=
  if b.start = b.endIdx then (0, b)
  else
    let v := b.mem b.start
    let s1 := b.start + 1
    let s2 := if s1 = PS2_ScanCodeBuffer_Size then 0 else s1
    (v, { b with start := s2 })

/-- Push a whole list of bytes in order. -/
def pushList (b : PS2Buf) : List Nat → PS2Buf
  | [] => b
  | v :: vs => pushList (PS2_Buffer_push b v) vs

/-- Pop n times, collecting the returned values in order. -/
def popN : PS2Buf → Nat → List Nat × PS2Buf
  | b, 0 => ([], b)
  | b, n + 1 =>
    let p := get_PS2_ScanCode b
    let q := popN p.2 n
    (p.1 :: q.1, q.2)

/-! Helper lemmas describing the buffer state while bytes 1..255 are pushed
into the initially empty ring, used to settle claim C2. -/

theorem pushList_append (b : PS2Buf) (l1 l2 : List Nat) :
    pushList b (l1 ++ l2) = pushList (pushList b l1) l2 := by
  induction l1 generalizing b with
  | nil => rfl
  | cons v vs ih => simp [pushList, ih]

/-- Memory contents after bytes 1..n have been stored at indices 0..n-1. -/
def seqMem (n : Nat) : Nat → Nat := fun i => if i < n then i + 1 else 0

theorem pushList_range (n : Nat) (h : n ≤ 253) :
    pushList emptyPS2Buf (List.range' 1 n) = ⟨seqMem n, 0, n⟩ := by
  induction n with
  | zero =>
    show emptyPS2Buf = _
    exact congrArg (fun f => PS2Buf.mk f 0 0) (funext fun i => by simp [seqMem])
  | succ n ih =>
    have hcat : List.range' 1 (n + 1) = List.range' 1 n ++ [1 + 1 * n] :=
      List.range'_concat 1 n
    have hrange : List.range' 1 (n + 1) = List.range' 1 n ++ [n + 1] := by
      rw [hcat, Nat.one_mul, Nat.add_comm 1 n]
    rw [hrange, pushList_append, ih (by omega)]
    simp only [pushList, PS2_Buffer_push, PS2_ScanCodeBuffer_Size]
    rw [if_neg (by omega : ¬ n + 1 = 254)]
    rw [if_neg (by omega : ¬ n + 1 = 0)]
    congr 1
    funext i
    simp only [seqMem]
    split_ifs <;> omega

/-- Memory contents after all 255 pushes: byte 255 overwrote index 0. -/
def finalMem : Nat → Nat := fun i => if i = 0 then 255 else seqMem 254 i

theorem pushList_all255 :
    pushList emptyPS2Buf (List.range' 1 255) = ⟨finalMem, 2, 1⟩ := by
  have ha : List.range' 1 254 = List.range' 1 253 ++ [1 + 1 * 253] :=
    List.range'_concat 1 253
  have hb : List.range' 1 255 = List.range' 1 254 ++ [1 + 1 * 254] :=
    List.range'_concat 1 254
  have h1 : List.range' 1 255 = (List.range' 1 253 ++ [254]) ++ [255] := by
    rw [hb, ha]
  rw [h1, pushList_append, pushList_append, pushList_range 253 (by omega)]
  simp only [pushList]
  have step254 : PS2_Buffer_push ⟨seqMem 253, 0, 253⟩ 254 = ⟨seqMem 254, 1, 0⟩ := by
    simp only [PS2_Buffer_push, PS2_ScanCodeBuffer_Size]
    norm_num
    funext i
    simp only [seqMem]
    split_ifs <;> omega
  rw [step254]
  simp only [PS2_Buffer_push, PS2_ScanCodeBuffer_Size]
  norm_num
  rfl

/-- Popping n times while the unread region lies in indices s..253. -/
theorem popN_run (n : Nat) : ∀ s : Nat, 2 ≤ s → s ≤ 253 → s + n ≤ 254 →
    popN ⟨finalMem, s, 1⟩ n =
      (List.range' (s + 1) n, ⟨finalMem, if s + n = 254 then 0 else s + n, 1⟩) := by
  induction n with
  | zero =>
    intro s h2 h3 h4
    simp only [popN, List.range']
    rw [if_neg (by omega : ¬ s + 0 = 254)]
    simp
  | succ n ih =>
    intro s h2 h3 h4
    have hne : ¬ s = 1 := by omega
    have hval : finalMem s = s + 1 := by
      simp only [finalMem, seqMem]
      rw [if_neg (by omega : ¬ s = 0), if_pos (by omega : s < 254)]
    by_cases hs : s = 253
    · subst hs
      have hn : n = 0 := by omega
      subst hn
      simp only [popN, get_PS2_ScanCode, PS2_ScanCodeBuffer_Size]
      rw [if_neg (by omega : ¬ (253 : Nat) = 1)]
      simp only [hval]
      norm_num [List.range']
    · have hstep : (if s + 1 = PS2_ScanCodeBuffer_Size then 0 else s + 1) = s + 1 := by
        rw [if_neg (by simp only [PS2_ScanCodeBuffer_Size]; omega)]
      simp only [popN, get_PS2_ScanCode]
      rw [if_neg hne, hstep]
      have hih := ih (s + 1) (by omega) (by omega) (by omega)
      simp only [hih, hval]
      have harg : s + (n + 1) = s + 1 + n := by omega
      rw [harg, List.range'_succ]

theorem popN_add (b : PS2Buf) (m n : Nat) :
    popN b (m + n) =
      ((popN b m).1 ++ (popN (popN b m).2 n).1, (popN (popN b m).2 n).2) := by
  induction m generalizing b with
  | zero => simp [popN]
  | succ m ih =>
    rw [Nat.succ_add]
    simp only [popN, ih]
    simp [List.cons_append]

/-- Shared result for C2: the exact pop sequence after 255 pushes. -/
theorem pops_after_255 :
    (popN (pushList emptyPS2Buf (List.range' 1 255)) 254).1 = List.range' 3 253 ++ [0] := by
  rw [pushList_all255]
  rw [show (254 : Nat) = 252 + 1 + 1 from rfl, popN_add, popN_add]
  have hrun := popN_run 252 2 (by omega) (by omega) (by omega)
  norm_num at hrun
  rw [hrun]
  have hpop253 : popN ⟨finalMem, 0, 1⟩ 1 = ([255], ⟨finalMem, 1, 1⟩) := by
    simp only [popN, get_PS2_ScanCode, PS2_ScanCodeBuffer_Size]
    norm_num [finalMem]
  have hpop254 : popN ⟨finalMem, 1, 1⟩ 1 = ([0], ⟨finalMem, 1, 1⟩) := by
    simp only [popN, get_PS2_ScanCode, PS2_ScanCodeBuffer_Size]
    norm_num
  rw [hpop253, hpop254]
  have : List.range' 3 253 = List.range' 3 252 ++ [255] := by
    simpa using List.range'_concat 3 252
  simp [this]

set_option maxRecDepth 4000

/-! ## PS/2 serial bit decoder (main.c lines 1295-1352, PS2_Interrupt) -/

/-- The static state of PS2_Interrupt: observed start bit, the byte being
assembled, the running parity counter, observed stop bit, and the bit
position counter. The data pin sample (nonzero or zero) is a Bool. -/
structure PS2Dec where
  startBit : Bool
  data : Nat
  parityCount : Nat
  stopBit : Bool
  bitCount : Nat

/-- All statics are zero-initialized at boot. -/
def initPS2Dec : PS2Dec := ⟨false, 0, 0, false, 0⟩

/-- One invocation of the PS2_Interrupt handler on one sampled data bit.
Follows main.c lines 1303-1351: increment bitCount; switch on it (bit 1 is
the start bit, bits 2-9 shift the data byte right and set bit 7 from the
sample while counting one bits, bit 10 is the parity bit which also counts,
bit 11 is the stop bit); after bit 11, push the byte when the parity count
is odd, the start bit was 0 and the stop bit was 1, then reset the parity
and bit counters. -/
def PS2_Interrupt (st : PS2Dec) (buf : PS2Buf) (thisBit : Bool) : PS2Dec × PS2Buf :=
  let bc := st.bitCount + 1
  let st1 :=
    if bc = 1 then { st with bitCount := bc, startBit := thisBit }
    else if 2 ≤ bc ∧ bc ≤ 9 then
      let d := st.data / 2
      if thisBit then
        { st with bitCount := bc, data := d ||| 0x80, parityCount := st.parityCount + 1 }
      else
        { st with bitCount := bc, data := d &&& 0x7f }
    else if bc = 10 then
      if thisBit then { st with bitCount := bc, parityCount := st.parityCount + 1 }
      else { st with bitCount := bc }
    else if bc = 11 then { st with bitCount := bc, stopBit := thisBit }
    else { st with bitCount := bc }
  if bc > 10 then
    let buf1 :=
      if (st1.parityCount % 2 == 1) && !st1.startBit && st1.stopBit then
        PS2_Buffer_push buf st1.data
      else buf
    ({ st1 with parityCount := 0, bitCount := 0 }, buf1)
  else (st1, buf)

/-- Feed a sequence of sampled bits to the interrupt handler. -/
def runFrame : List Bool → PS2Dec → PS2Buf → PS2Dec × PS2Buf
  | [], st, buf => (st, buf)
  | b :: bs, st, buf =>
    let p := PS2_Interrupt st buf b
    runFrame bs p.1 p.2

/-- The low n bits of a byte value, least significant first. -/
def natBitsLSB : Nat → Nat → List Bool
  | 0, _ => []
  | n + 1, k => (k % 2 == 1) :: natBitsLSB n (k / 2)

/-- Number of one bits in a sampled bit list. -/
def countTrue (l : List Bool) : Nat := List.count true l

/-- The parity bit that gives odd parity over the 9 bits (8 data bits plus
the parity bit itself) for the byte k, per the PS/2 framing the decoder
expects. -/
def oddParityBit (k : Nat) : Bool := countTrue (natBitsLSB 8 k) % 2 == 0

/-- A correctly framed 11-bit transmission of byte k: start bit 0, the 8
data bits least significant first, the odd-parity bit, stop bit 1. -/
def frameOfByte (k : Nat) : List Bool :=
  false :: (natBitsLSB 8 k ++ [oddParityBit k, true])

/-- C1: (a) for every 11-bit frame fed to the freshly reset decoder with an
empty buffer, a byte is pushed if and only if the start bit is 0, the stop
bit is 1 and the population count of the 9 middle bits (8 data bits plus
parity bit) is odd; (b) for every byte value below 256 transmitted with
correct framing, exactly one byte is pushed and a subsequent dequeue by the
consumer returns exactly that byte value. -/
theorem C1_frame_validation :
    (∀ b1 b2 b3 b4 b5 b6 b7 b8 b9 b10 b11 : Bool,
      (runFrame [b1, b2, b3, b4, b5, b6, b7, b8, b9, b10, b11] initPS2Dec emptyPS2Buf).2.endIdx ≠ 0
        ↔ (b1 = false ∧ b11 = true ∧ countTrue [b2, b3, b4, b5, b6, b7, b8, b9, b10] % 2 = 1)) ∧
    (∀ k : Fin 256,
      (runFrame (frameOfByte k.val) initPS2Dec emptyPS2Buf).2.endIdx = 1 ∧
      (get_PS2_ScanCode (runFrame (frameOfByte k.val) initPS2Dec emptyPS2Buf).2).1 = k.val) := by
  constructor
  · decide
  · decide

/-- C2 counterexample: pushing bytes 1..255 into the empty buffer and then
popping 254 times does NOT yield bytes 2..255 — the ring (Start equal to
End means empty) holds at most 253 bytes, so byte 2 is evicted as well as
byte 1. -/
theorem C2_counterexample :
    (popN (pushList emptyPS2Buf (List.range' 1 255)) 254).1 ≠ List.range' 2 254 := by
  rw [pops_after_255]
  intro h
  have h2 : List.range' 2 254 = 2 :: List.range' 3 253 := by
    rw [show (254 : Nat) = 253 + 1 from rfl, List.range'_succ]
  rw [h2, show (253 : Nat) = 252 + 1 from rfl, List.range'_succ] at h
  simp at h

/-- C2 amended: the ring of size 254 holds at most 253 unread bytes, so
pushing bytes 1..255 evicts bytes 1 AND 2; popping 254 times yields bytes
3..255 in order followed by one 0 (the 254th pop finds the buffer empty). -/
theorem C2_buffer_bound :
    (popN (pushList emptyPS2Buf (List.range' 1 255)) 254).1 = List.range' 3 253 ++ [0] :=
  pops_after_255

/-- C10: if both ring indices are below 254 then the index read or written
by the operation is in bounds, and after a push (any byte value) and after
a pop both indices are again below 254. -/
theorem C10_index_bounds (b : PS2Buf) (v : Nat)
    (hs : b.start < PS2_ScanCodeBuffer_Size) (he : b.endIdx < PS2_ScanCodeBuffer_Size) :
    ((PS2_Buffer_push b v).start < PS2_ScanCodeBuffer_Size ∧
     (PS2_Buffer_push b v).endIdx < PS2_ScanCodeBuffer_Size) ∧
    ((get_PS2_ScanCode b).2.start < PS2_ScanCodeBuffer_Size ∧
     (get_PS2_ScanCode b).2.endIdx < PS2_ScanCodeBuffer_Size) := by
  simp only [PS2_Buffer_push, get_PS2_ScanCode, PS2_ScanCodeBuffer_Size] at *
  refine ⟨?_, ?_⟩ <;> split_ifs <;> simp only [] <;> omega

/-- C10 witness: the bounds theorem applied to the empty buffer and byte 5. -/
theorem C10_index_bounds_witness :
    emptyPS2Buf.start < PS2_ScanCodeBuffer_Size ∧
    emptyPS2Buf.endIdx < PS2_ScanCodeBuffer_Size ∧
    (((PS2_Buffer_push emptyPS2Buf 5).start < PS2_ScanCodeBuffer_Size ∧
      (PS2_Buffer_push emptyPS2Buf 5).endIdx < PS2_ScanCodeBuffer_Size) ∧
     ((get_PS2_ScanCode emptyPS2Buf).2.start < PS2_ScanCodeBuffer_Size ∧
      (get_PS2_ScanCode emptyPS2Buf).2.endIdx < PS2_ScanCodeBuffer_Size)) :=
  ⟨by decide, by decide, C10_index_bounds emptyPS2Buf 5 (by decide) (by decide)⟩

/-! ## MT8816 switch matrix driver (main.c lines 486-510) -/

/-- The X address remap performed by MT8816_Switch before writing PORTA,
compensating the MT8816 address decode truth table: logical X 6..11 shift
up by 2, logical X 12..13 shift down by 6, all others pass through. -/
def MT8816_remapX (x : Nat) : Nat :=
  if 6 ≤ x ∧ x ≤ 11 then x + 2
  else if 12 ≤ x ∧ x ≤ 13 then x - 6
  else x

/-- The value MT8816_Switch writes to PORTA for a switch address: the
remapped X nibble combined with the Y field (bits 4-5). -/
def MT8816_portValue (switchAddress : Nat) : Nat :=
  MT8816_remapX (switchAddress &&& 0x0F) ||| (switchAddress &&& 0x30)

/-- C3: the X remap is total on 0..15 with the piecewise description of the
spec (add 2 on 6..11, subtract 6 on 12..13, identity elsewhere), takes the
six spot values listed, and its image on 0..15 is a permutation of 0..15. -/
theorem C3_remap_correctness :
    (∀ x : Fin 16, MT8816_remapX x.val =
      (if 6 ≤ x.val ∧ x.val ≤ 11 then x.val + 2
       else if 12 ≤ x.val ∧ x.val ≤ 13 then x.val - 6
       else x.val)) ∧
    MT8816_remapX 6 = 8 ∧ MT8816_remapX 11 = 13 ∧ MT8816_remapX 12 = 6 ∧
    MT8816_remapX 13 = 7 ∧ MT8816_remapX 0 = 0 ∧ MT8816_remapX 15 = 15 ∧
    ((List.range 16).map MT8816_remapX).Perm (List.range 16) := by
  refine ⟨fun x => rfl, ?_⟩
  decide

/-! ## Switch address constants (main.c lines 200-476) -/

def NO_SWITCH_ACTION : Nat := 0x80

def PIA_PA0 : Nat := 0x00
def PIA_PA1 : Nat := 0x10
def PIA_PA2 : Nat := 0x28
def PIA_PA3 : Nat := 0x38

def PIA_PB0 : Nat := 0
def PIA_PB1 : Nat := 1
def PIA_PB2 : Nat := 2
def PIA_PB3 : Nat := 3
def PIA_PB4 : Nat := 4
def PIA_PB5 : Nat := 5
def PIA_PB6 : Nat := 6
def PIA_PB7 : Nat := 7

def Switch_1_a : Nat := PIA_PA0 ||| PIA_PB3
def Switch_1_b : Nat := PIA_PA0 ||| PIA_PB2
def Switch_2_a : Nat := PIA_PA1 ||| PIA_PB5
def Switch_2_b : Nat := PIA_PA1 ||| PIA_PB4
def Switch_3_a : Nat := PIA_PA1 ||| PIA_PB5
def Switch_3_b : Nat := PIA_PA1 ||| PIA_PB6
def Switch_4_a : Nat := PIA_PA1 ||| PIA_PB5
def Switch_4_b : Nat := PIA_PA1 ||| PIA_PB3
def Switch_5_a : Nat := PIA_PA1 ||| PIA_PB6
def Switch_5_b : Nat := PIA_PA1 ||| PIA_PB3
def Switch_6_a : Nat := PIA_PA1 ||| PIA_PB6
def Switch_6_b : Nat := PIA_PA1 ||| PIA_PB4
def Switch_CNTL : Nat := PIA_PA0 ||| PIA_PB7
def Switch_Q_a : Nat := PIA_PA1 ||| PIA_PB4
def Switch_Q_b : Nat := PIA_PA1 ||| PIA_PB3
def Switch_W_a : Nat := PIA_PA1 ||| PIA_PB3
def Switch_W_b : Nat := PIA_PA1 ||| PIA_PB2
def Switch_E_a : Nat := PIA_PA1 ||| PIA_PB4
def Switch_E_b : Nat := PIA_PA1 ||| PIA_PB2
def Switch_R_a : Nat := PIA_PA1 ||| PIA_PB5
def Switch_R_b : Nat := PIA_PA1 ||| PIA_PB2
def Switch_T_a : Nat := PIA_PA1 ||| PIA_PB6
def Switch_T_b : Nat := PIA_PA1 ||| PIA_PB2
def Switch_LEFT_a : Nat := PIA_PA1 ||| PIA_PB3
def Switch_LEFT_b : Nat := PIA_PA1 ||| PIA_PB0
def Switch_A_a : Nat := PIA_PA1 ||| PIA_PB4
def Switch_A_b : Nat := PIA_PA1 ||| PIA_PB0
def Switch_S_a : Nat := PIA_PA1 ||| PIA_PB5
def Switch_S_b : Nat := PIA_PA1 ||| PIA_PB0
def Switch_D_a : Nat := PIA_PA1 ||| PIA_PB6
def Switch_D_b : Nat := PIA_PA1 ||| PIA_PB0
def Switch_F_a : Nat := PIA_PA1 ||| PIA_PB1
def Switch_F_b : Nat := PIA_PA1 ||| PIA_PB0
def Switch_G_a : Nat := PIA_PA1 ||| PIA_PB2
def Switch_G_b : Nat := PIA_PA1 ||| PIA_PB0
def Switch_SHIFT : Nat := PIA_PA1 ||| PIA_PB7
def Switch_Z_a : Nat := PIA_PA1 ||| PIA_PB3
def Switch_Z_b : Nat := PIA_PA1 ||| PIA_PB1
def Switch_X_a : Nat := PIA_PA1 ||| PIA_PB4
def Switch_X_b : Nat := PIA_PA1 ||| PIA_PB1
def Switch_C_a : Nat := PIA_PA1 ||| PIA_PB5
def Switch_C_b : Nat := PIA_PA1 ||| PIA_PB1
def Switch_V_a : Nat := PIA_PA1 ||| PIA_PB6
def Switch_V_b : Nat := PIA_PA1 ||| PIA_PB1
def Switch_B_a : Nat := PIA_PA1 ||| PIA_PB2
def Switch_B_b : Nat := PIA_PA1 ||| PIA_PB1
def Switch_7_a : Nat := PIA_PA3 ||| PIA_PB1
def Switch_7_b : Nat := PIA_PA3 ||| PIA_PB2
def Switch_8_a : Nat := PIA_PA3 ||| PIA_PB6
def Switch_8_b : Nat := PIA_PA3 ||| PIA_PB1
def Switch_9_a : Nat := PIA_PA3 ||| PIA_PB5
def Switch_9_b : Nat := PIA_PA3 ||| PIA_PB1
def Switch_0_a : Nat := PIA_PA3 ||| PIA_PB4
def Switch_0_b : Nat := PIA_PA3 ||| PIA_PB1
def Switch_COLON_a : Nat := PIA_PA3 ||| PIA_PB3
def Switch_COLON_b : Nat := PIA_PA3 ||| PIA_PB1
def Switch_MINUS : Nat := PIA_PA3 ||| PIA_PB7
def Switch_Y_a : Nat := PIA_PA3 ||| PIA_PB0
def Switch_Y_b : Nat := PIA_PA3 ||| PIA_PB2
def Switch_U_a : Nat := PIA_PA3 ||| PIA_PB0
def Switch_U_b : Nat := PIA_PA3 ||| PIA_PB1
def Switch_I_a : Nat := PIA_PA3 ||| PIA_PB6
def Switch_I_b : Nat := PIA_PA3 ||| PIA_PB0
def Switch_O_a : Nat := PIA_PA3 ||| PIA_PB5
def Switch_O_b : Nat := PIA_PA3 ||| PIA_PB0
def Switch_P_a : Nat := PIA_PA3 ||| PIA_PB4
def Switch_P_b : Nat := PIA_PA3 ||| PIA_PB0
def Switch_RETN_a : Nat := PIA_PA3 ||| PIA_PB3
def Switch_RETN_b : Nat := PIA_PA3 ||| PIA_PB0
def Switch_H_a : Nat := PIA_PA3 ||| PIA_PB6
def Switch_H_b : Nat := PIA_PA3 ||| PIA_PB2
def Switch_J_a : Nat := PIA_PA3 ||| PIA_PB5
def Switch_J_b : Nat := PIA_PA3 ||| PIA_PB2
def Switch_K_a : Nat := PIA_PA3 ||| PIA_PB4
def Switch_K_b : Nat := PIA_PA3 ||| PIA_PB2
def Switch_L_a : Nat := PIA_PA3 ||| PIA_PB3
def Switch_L_b : Nat := PIA_PA3 ||| PIA_PB2
def Switch_SEMICOLON_a : Nat := PIA_PA3 ||| PIA_PB4
def Switch_SEMICOLON_b : Nat := PIA_PA3 ||| PIA_PB3
def Switch_N_a : Nat := PIA_PA3 ||| PIA_PB6
def Switch_N_b : Nat := PIA_PA3 ||| PIA_PB4
def Switch_M_a : Nat := PIA_PA3 ||| PIA_PB6
def Switch_M_b : Nat := PIA_PA3 ||| PIA_PB3
def Switch_COMMA_a : Nat := PIA_PA3 ||| PIA_PB5
def Switch_COMMA_b : Nat := PIA_PA3 ||| PIA_PB3
def Switch_PERIOD_a : Nat := PIA_PA3 ||| PIA_PB6
def Switch_PERIOD_b : Nat := PIA_PA3 ||| PIA_PB5
def Switch_FORWARDSLASH_a : Nat := PIA_PA3 ||| PIA_PB5
def Switch_FORWARDSLASH_b : Nat := PIA_PA3 ||| PIA_PB4
def Switch_RIGHT : Nat := PIA_PA2 ||| PIA_PB7
def Switch_SPACE_a : Nat := PIA_PA2 ||| PIA_PB3
def Switch_SPACE_b : Nat := PIA_PA2 ||| PIA_PB2

def Switch_JoyL_Up : Nat := PIA_PA0 ||| PIA_PB3
def Switch_JoyL_Down : Nat := PIA_PA0 ||| PIA_PB1
def Switch_JoyL_Left : Nat := PIA_PA0 ||| PIA_PB5
def Switch_JoyL_Right : Nat := PIA_PA0 ||| PIA_PB2
def Switch_JoyL_UpLeft_Extra : Nat := PIA_PA0 ||| PIA_PB4
def Switch_JoyL_UpRightDownLeft_Extra : Nat := PIA_PA0 ||| PIA_PB6
def Switch_JoyL_DownRight_Extra : Nat := PIA_PA0 ||| PIA_PB0
def Switch_JoyL_Button1 : Nat := PIA_PA0 ||| PIA_PB7
def Switch_JoyL_Button2 : Nat := PIA_PA1 ||| PIA_PB7

def Switch_JoyR_Up : Nat := PIA_PA2 ||| PIA_PB3
def Switch_JoyR_Down : Nat := PIA_PA2 ||| PIA_PB1
def Switch_JoyR_Left : Nat := PIA_PA2 ||| PIA_PB5
def Switch_JoyR_Right : Nat := PIA_PA2 ||| PIA_PB2
def Switch_JoyR_UpLeft_Extra : Nat := PIA_PA2 ||| PIA_PB4
def Switch_JoyR_UpRightDownLeft_Extra : Nat := PIA_PA2 ||| PIA_PB6
def Switch_JoyR_DownRight_Extra : Nat := PIA_PA2 ||| PIA_PB0
def Switch_JoyR_Button1 : Nat := PIA_PA2 ||| PIA_PB7
def Switch_JoyR_Button2 : Nat := PIA_PA3 ||| PIA_PB7

/-! ## Joystick samplers (main.c lines 600-719 and 728-847) -/

/-- One recorded call to MT8816_Switch: the switchState argument and the
switch address argument. -/
structure Call where
  switchState : Bool
  addr : Nat
deriving DecidableEq

/-- process_Joystick_Left as a pure step function: given the stored
previous snapshot and the freshly read snapshot, return the list of
MT8816_Switch calls issued (in order) and the new stored snapshot.
Follows main.c lines 600-719: on change, button 1 and button 2 are driven
from bits 4 and 5, then the direction nibble selects one of nine cases,
each opening the switches not needed before closing the needed ones. -/
def process_Joystick_Left (joyLeft_prev joyLeft : Nat) : List Call × Nat :=
  if joyLeft ≠ joyLeft_prev then
    let bcalls : List Call :=
      [if joyLeft &&& 0x10 ≠ 0 then ⟨true, Switch_JoyL_Button1⟩ else ⟨false, Switch_JoyL_Button1⟩,
       if joyLeft &&& 0x20 ≠ 0 then ⟨true, Switch_JoyL_Button2⟩ else ⟨false, Switch_JoyL_Button2⟩]
    let d := joyLeft &&& 0x0F
    let dcalls : List Call :=
      if d = 0x01 then
        [⟨false, Switch_JoyL_Down⟩, ⟨false, Switch_JoyL_Left⟩, ⟨false, Switch_JoyL_Right⟩,
         ⟨false, Switch_JoyL_UpLeft_Extra⟩, ⟨false, Switch_JoyL_UpRightDownLeft_Extra⟩,
         ⟨false, Switch_JoyL_DownRight_Extra⟩, ⟨true, Switch_JoyL_Up⟩]
      else if d = 0x02 then
        [⟨false, Switch_JoyL_Up⟩, ⟨false, Switch_JoyL_Left⟩, ⟨false, Switch_JoyL_Right⟩,
         ⟨false, Switch_JoyL_UpLeft_Extra⟩, ⟨false, Switch_JoyL_UpRightDownLeft_Extra⟩,
         ⟨false, Switch_JoyL_DownRight_Extra⟩, ⟨true, Switch_JoyL_Down⟩]
      else if d = 0x04 then
        [⟨false, Switch_JoyL_Up⟩, ⟨false, Switch_JoyL_Down⟩, ⟨false, Switch_JoyL_Right⟩,
         ⟨false, Switch_JoyL_UpLeft_Extra⟩, ⟨false, Switch_JoyL_UpRightDownLeft_Extra⟩,
         ⟨false, Switch_JoyL_DownRight_Extra⟩, ⟨true, Switch_JoyL_Left⟩]
      else if d = 0x08 then
        [⟨false, Switch_JoyL_Up⟩, ⟨false, Switch_JoyL_Down⟩, ⟨false, Switch_JoyL_Left⟩,
         ⟨false, Switch_JoyL_UpLeft_Extra⟩, ⟨false, Switch_JoyL_UpRightDownLeft_Extra⟩,
         ⟨false, Switch_JoyL_DownRight_Extra⟩, ⟨true, Switch_JoyL_Right⟩]
      else if d = 0x05 then
        [⟨false, Switch_JoyL_Down⟩, ⟨false, Switch_JoyL_Right⟩,
         ⟨false, Switch_JoyL_UpRightDownLeft_Extra⟩, ⟨false, Switch_JoyL_DownRight_Extra⟩,
         ⟨true, Switch_JoyL_UpLeft_Extra⟩, ⟨true, Switch_JoyL_Up⟩, ⟨true, Switch_JoyL_Left⟩]
      else if d = 0x09 then
        [⟨false, Switch_JoyL_Down⟩, ⟨false, Switch_JoyL_Left⟩,
         ⟨false, Switch_JoyL_UpLeft_Extra⟩, ⟨false, Switch_JoyL_DownRight_Extra⟩,
         ⟨true, Switch_JoyL_UpRightDownLeft_Extra⟩, ⟨true, Switch_JoyL_Up⟩, ⟨true, Switch_JoyL_Right⟩]
      else if d = 0x0A then
        [⟨false, Switch_JoyL_Up⟩, ⟨false, Switch_JoyL_Left⟩,
         ⟨false, Switch_JoyL_UpLeft_Extra⟩, ⟨false, Switch_JoyL_UpRightDownLeft_Extra⟩,
         ⟨true, Switch_JoyL_DownRight_Extra⟩, ⟨true, Switch_JoyL_Down⟩, ⟨true, Switch_JoyL_Right⟩]
      else if d = 0x06 then
        [⟨false, Switch_JoyL_Up⟩, ⟨false, Switch_JoyL_Right⟩,
         ⟨false, Switch_JoyL_UpLeft_Extra⟩, ⟨false, Switch_JoyL_DownRight_Extra⟩,
         ⟨true, Switch_JoyL_UpRightDownLeft_Extra⟩, ⟨true, Switch_JoyL_Down⟩, ⟨true, Switch_JoyL_Left⟩]
      else
        [⟨false, Switch_JoyL_Up⟩, ⟨false, Switch_JoyL_Down⟩, ⟨false, Switch_JoyL_Left⟩,
         ⟨false, Switch_JoyL_Right⟩, ⟨false, Switch_JoyL_UpLeft_Extra⟩,
         ⟨false, Switch_JoyL_UpRightDownLeft_Extra⟩, ⟨false, Switch_JoyL_DownRight_Extra⟩]
    (bcalls ++ dcalls, joyLeft)
  else ([], joyLeft_prev)

/-- process_Joystick_Right as a pure step function (main.c lines 728-847),
identical in structure to the left sampler but over the right controller
switch constants. -/
def process_Joystick_Right (joyRight_prev joyRight : Nat) : List Call × Nat :=
  if joyRight ≠ joyRight_prev then
    let bcalls : List Call :=
      [if joyRight &&& 0x10 ≠ 0 then ⟨true, Switch_JoyR_Button1⟩ else ⟨false, Switch_JoyR_Button1⟩,
       if joyRight &&& 0x20 ≠ 0 then ⟨true, Switch_JoyR_Button2⟩ else ⟨false, Switch_JoyR_Button2⟩]
    let d := joyRight &&& 0x0F
    let dcalls : List Call :=
      if d = 0x01 then
        [⟨false, Switch_JoyR_Down⟩, ⟨false, Switch_JoyR_Left⟩, ⟨false, Switch_JoyR_Right⟩,
         ⟨false, Switch_JoyR_UpLeft_Extra⟩, ⟨false, Switch_JoyR_UpRightDownLeft_Extra⟩,
         ⟨false, Switch_JoyR_DownRight_Extra⟩, ⟨true, Switch_JoyR_Up⟩]
      else if d = 0x02 then
        [⟨false, Switch_JoyR_Up⟩, ⟨false, Switch_JoyR_Left⟩, ⟨false, Switch_JoyR_Right⟩,
         ⟨false, Switch_JoyR_UpLeft_Extra⟩, ⟨false, Switch_JoyR_UpRightDownLeft_Extra⟩,
         ⟨false, Switch_JoyR_DownRight_Extra⟩, ⟨true, Switch_JoyR_Down⟩]
      else if d = 0x04 then
        [⟨false, Switch_JoyR_Up⟩, ⟨false, Switch_JoyR_Down⟩, ⟨false, Switch_JoyR_Right⟩,
         ⟨false, Switch_JoyR_UpLeft_Extra⟩, ⟨false, Switch_JoyR_UpRightDownLeft_Extra⟩,
         ⟨false, Switch_JoyR_DownRight_Extra⟩, ⟨true, Switch_JoyR_Left⟩]
      else if d = 0x08 then
        [⟨false, Switch_JoyR_Up⟩, ⟨false, Switch_JoyR_Down⟩, ⟨false, Switch_JoyR_Left⟩,
         ⟨false, Switch_JoyR_UpLeft_Extra⟩, ⟨false, Switch_JoyR_UpRightDownLeft_Extra⟩,
         ⟨false, Switch_JoyR_DownRight_Extra⟩, ⟨true, Switch_JoyR_Right⟩]
      else if d = 0x05 then
        [⟨false, Switch_JoyR_Down⟩, ⟨false, Switch_JoyR_Right⟩,
         ⟨false, Switch_JoyR_UpRightDownLeft_Extra⟩, ⟨false, Switch_JoyR_DownRight_Extra⟩,
         ⟨true, Switch_JoyR_UpLeft_Extra⟩, ⟨true, Switch_JoyR_Up⟩, ⟨true, Switch_JoyR_Left⟩]
      else if d = 0x09 then
        [⟨false, Switch_JoyR_Down⟩, ⟨false, Switch_JoyR_Left⟩,
         ⟨false, Switch_JoyR_UpLeft_Extra⟩, ⟨false, Switch_JoyR_DownRight_Extra⟩,
         ⟨true, Switch_JoyR_UpRightDownLeft_Extra⟩, ⟨true, Switch_JoyR_Up⟩, ⟨true, Switch_JoyR_Right⟩]
      else if d = 0x0A then
        [⟨false, Switch_JoyR_Up⟩, ⟨false, Switch_JoyR_Left⟩,
         ⟨false, Switch_JoyR_UpLeft_Extra⟩, ⟨false, Switch_JoyR_UpRightDownLeft_Extra⟩,
         ⟨true, Switch_JoyR_DownRight_Extra⟩, ⟨true, Switch_JoyR_Down⟩, ⟨true, Switch_JoyR_Right⟩]
      else if d = 0x06 then
        [⟨false, Switch_JoyR_Up⟩, ⟨false, Switch_JoyR_Right⟩,
         ⟨false, Switch_JoyR_UpLeft_Extra⟩, ⟨false, Switch_JoyR_DownRight_Extra⟩,
         ⟨true, Switch_JoyR_UpRightDownLeft_Extra⟩, ⟨true, Switch_JoyR_Down⟩, ⟨true, Switch_JoyR_Left⟩]
      else
        [⟨false, Switch_JoyR_Up⟩, ⟨false, Switch_JoyR_Down⟩, ⟨false, Switch_JoyR_Left⟩,
         ⟨false, Switch_JoyR_Right⟩, ⟨false, Switch_JoyR_UpLeft_Extra⟩,
         ⟨false, Switch_JoyR_UpRightDownLeft_Extra⟩, ⟨false, Switch_JoyR_DownRight_Extra⟩]
    (bcalls ++ dcalls, joyRight)
  else ([], joyRight_prev)

/-- C7: for both joystick instances, the transition from no input (raw 0)
to Up plus Left (raw 0x05) issues close calls for exactly three
crosspoints, namely the UpLeft extra diagonal, Up and Left, and a repeat
poll with an unchanged snapshot issues no calls at all. -/
theorem C7_joystick_diagonal :
    ((process_Joystick_Left 0 0x05).1.filter (fun c => c.switchState) =
      [⟨true, Switch_JoyL_UpLeft_Extra⟩, ⟨true, Switch_JoyL_Up⟩, ⟨true, Switch_JoyL_Left⟩]) ∧
    (process_Joystick_Left 0 0x05).2 = 0x05 ∧
    process_Joystick_Left 0x05 0x05 = ([], 0x05) ∧
    ((process_Joystick_Right 0 0x05).1.filter (fun c => c.switchState) =
      [⟨true, Switch_JoyR_UpLeft_Extra⟩, ⟨true, Switch_JoyR_Up⟩, ⟨true, Switch_JoyR_Left⟩]) ∧
    (process_Joystick_Right 0 0x05).2 = 0x05 ∧
    process_Joystick_Right 0x05 0x05 = ([], 0x05) := by
  decide

/-- Checks that once a close call appears in the list, no open call follows
it, i.e. no close precedes any open. -/
def noCloseBeforeOpen : List Call → Bool
  | [] => true
  | c :: rest => if c.switchState then rest.all (fun x => x.switchState) else noCloseBeforeOpen rest

/-- C8 counterexample: the transition from raw 0 to raw 0x11 (Up with
button 1 pressed) is a direction-state transition whose changed poll emits
a close call for button 1 BEFORE the open call for button 2 and before the
direction open calls, so the poll-wide open-before-close ordering claimed
does not hold. -/
theorem C8_counterexample :
    noCloseBeforeOpen (process_Joystick_Left 0 0x11).1 = false := by
  decide

/-- C8 amended: the open-before-close discipline holds for the
direction-crosspoint calls of every changed poll (the calls emitted by the
direction switch, i.e. all calls after the two button calls); only the two
button calls, which are issued first and independently of direction state,
may put a close ahead of an open. -/
theorem C8_make_before_break :
    ∀ prev, prev < 64 → ∀ raw, raw < 64 →
    noCloseBeforeOpen ((process_Joystick_Left prev raw).1.drop 2) = true ∧
    noCloseBeforeOpen ((process_Joystick_Right prev raw).1.drop 2) = true := by
  decide

/-- C8 witness: the amended ordering theorem applied to the transition
from raw 0 to raw 0x11 on both samplers. -/
theorem C8_make_before_break_witness :
    (0 : Nat) < 64 ∧ (0x11 : Nat) < 64 ∧
    (noCloseBeforeOpen ((process_Joystick_Left 0 0x11).1.drop 2) = true ∧
     noCloseBeforeOpen ((process_Joystick_Right 0 0x11).1.drop 2) = true) :=
  ⟨by decide, by decide, C8_make_before_break 0 (by decide) 0x11 (by decide)⟩

/-! ## Scan code interpreter (main.c lines 877-1289, process_PS2_ScanCode) -/

/-- The two sticky flags of process_PS2_ScanCode, static across calls. -/
structure KeyFlags where
  key_release : Bool
  extended : Bool
deriving DecidableEq

/-- The big switch of process_PS2_ScanCode (main.c lines 895-1254): given
the current flags and a nonzero scan code, return the updated flags
together with the two switch values a and b selected by the case (both
initialized to NO_SWITCH_ACTION). Cases guarded by the extended flag in
the C source are guarded the same way here; the default case clears both
flags. -/
def scanCodeCase (fl : KeyFlags) (c : Nat) : KeyFlags × Nat × Nat :=
  if c = 0xF0 then ({ fl with key_release := true }, NO_SWITCH_ACTION, NO_SWITCH_ACTION)
  else if c = 0xE0 ∨ c = 0xE1 then ({ fl with extended := true }, NO_SWITCH_ACTION, NO_SWITCH_ACTION)
  else if c = 0x16 then (fl, Switch_1_a, Switch_1_b)
  else if c = 0x69 then
    (if fl.extended then (fl, NO_SWITCH_ACTION, NO_SWITCH_ACTION) else (fl, Switch_1_a, Switch_1_b))
  else if c = 0x1E then (fl, Switch_2_a, Switch_2_b)
  else if c = 0x72 then
    (if fl.extended then (fl, NO_SWITCH_ACTION, NO_SWITCH_ACTION) else (fl, Switch_2_a, Switch_2_b))
  else if c = 0x26 then (fl, Switch_3_a, Switch_3_b)
  else if c = 0x7A then
    (if fl.extended then (fl, NO_SWITCH_ACTION, NO_SWITCH_ACTION) else (fl, Switch_3_a, Switch_3_b))
  else if c = 0x25 then (fl, Switch_4_a, Switch_4_b)
  else if c = 0x2E then (fl, Switch_5_a, Switch_5_b)
  else if c = 0x73 then (fl, Switch_5_a, Switch_5_b)
  else if c = 0x36 then (fl, Switch_6_a, Switch_6_b)
  else if c = 0x15 then (fl, Switch_Q_a, Switch_Q_b)
  else if c = 0x1D then (fl, Switch_W_a, Switch_W_b)
  else if c = 0x24 then (fl, Switch_E_a, Switch_E_b)
  else if c = 0x2D then (fl, Switch_R_a, Switch_R_b)
  else if c = 0x2C then (fl, Switch_T_a, Switch_T_b)
  else if c = 0x6B then
    (if fl.extended then (fl, Switch_LEFT_a, Switch_LEFT_b) else (fl, Switch_4_a, Switch_4_b))
  else if c = 0x66 then (fl, Switch_LEFT_a, Switch_LEFT_b)
  else if c = 0x1C then (fl, Switch_A_a, Switch_A_b)
  else if c = 0x1B then (fl, Switch_S_a, Switch_S_b)
  else if c = 0x23 then (fl, Switch_D_a, Switch_D_b)
  else if c = 0x2B then (fl, Switch_F_a, Switch_F_b)
  else if c = 0x34 then (fl, Switch_G_a, Switch_G_b)
  else if c = 0x12 then
    (if fl.extended then (fl, NO_SWITCH_ACTION, NO_SWITCH_ACTION) else (fl, Switch_SHIFT, NO_SWITCH_ACTION))
  else if c = 0x59 then (fl, Switch_SHIFT, NO_SWITCH_ACTION)
  else if c = 0x1A then (fl, Switch_Z_a, Switch_Z_b)
  else if c = 0x22 then (fl, Switch_X_a, Switch_X_b)
  else if c = 0x21 then (fl, Switch_C_a, Switch_C_b)
  else if c = 0x2A then (fl, Switch_V_a, Switch_V_b)
  else if c = 0x32 then (fl, Switch_B_a, Switch_B_b)
  else if c = 0x14 then (fl, Switch_CNTL, NO_SWITCH_ACTION)
  else if c = 0x3D then (fl, Switch_7_a, Switch_7_b)
  else if c = 0x6C then
    (if fl.extended then (fl, NO_SWITCH_ACTION, NO_SWITCH_ACTION) else (fl, Switch_7_a, Switch_7_b))
  else if c = 0x3E then (fl, Switch_8_a, Switch_8_b)
  else if c = 0x75 then
    (if fl.extended then (fl, NO_SWITCH_ACTION, NO_SWITCH_ACTION) else (fl, Switch_8_a, Switch_8_b))
  else if c = 0x46 then (fl, Switch_9_a, Switch_9_b)
  else if c = 0x7D then
    (if fl.extended then (fl, NO_SWITCH_ACTION, NO_SWITCH_ACTION) else (fl, Switch_9_a, Switch_9_b))
  else if c = 0x45 then (fl, Switch_0_a, Switch_0_b)
  else if c = 0x70 then
    (if fl.extended then (fl, NO_SWITCH_ACTION, NO_SWITCH_ACTION) else (fl, Switch_0_a, Switch_0_b))
  else if c = 0x52 then (fl, Switch_COLON_a, Switch_COLON_b)
  else if c = 0x4E then (fl, Switch_MINUS, NO_SWITCH_ACTION)
  else if c = 0x7B then (fl, Switch_MINUS, NO_SWITCH_ACTION)
  else if c = 0x35 then (fl, Switch_Y_a, Switch_Y_b)
  else if c = 0x3C then (fl, Switch_U_a, Switch_U_b)
  else if c = 0x43 then (fl, Switch_I_a, Switch_I_b)
  else if c = 0x44 then (fl, Switch_O_a, Switch_O_b)
  else if c = 0x4D then (fl, Switch_P_a, Switch_P_b)
  else if c = 0x5A then (fl, Switch_RETN_a, Switch_RETN_b)
  else if c = 0x33 then (fl, Switch_H_a, Switch_H_b)
  else if c = 0x3B then (fl, Switch_J_a, Switch_J_b)
  else if c = 0x42 then (fl, Switch_K_a, Switch_K_b)
  else if c = 0x4B then (fl, Switch_L_a, Switch_L_b)
  else if c = 0x4C then (fl, Switch_SEMICOLON_a, Switch_SEMICOLON_b)
  else if c = 0x31 then (fl, Switch_N_a, Switch_N_b)
  else if c = 0x3A then (fl, Switch_M_a, Switch_M_b)
  else if c = 0x41 then (fl, Switch_COMMA_a, Switch_COMMA_b)
  else if c = 0x49 then (fl, Switch_PERIOD_a, Switch_PERIOD_b)
  else if c = 0x71 then
    (if fl.extended then (fl, NO_SWITCH_ACTION, NO_SWITCH_ACTION) else (fl, Switch_PERIOD_a, Switch_PERIOD_b))
  else if c = 0x4A then (fl, Switch_FORWARDSLASH_a, Switch_FORWARDSLASH_b)
  else if c = 0x74 then
    (if fl.extended then (fl, Switch_RIGHT, NO_SWITCH_ACTION) else (fl, Switch_6_a, Switch_6_b))
  else if c = 0x29 then (fl, Switch_SPACE_a, Switch_SPACE_b)
  else (⟨false, false⟩, NO_SWITCH_ACTION, NO_SWITCH_ACTION)

/-- One invocation of process_PS2_ScanCode: dequeue a byte, and when it is
nonzero run the switch; when one of the two switch values carries an
action, emit MT8816_Switch with state equal to the negation of the
key_release flag for each valid value and then clear both flags (main.c
lines 1259-1287). Returns the new flags, the new buffer and the calls. -/
def process_PS2_ScanCode (fl : KeyFlags) (buf : PS2Buf) : KeyFlags × PS2Buf × List Call :=
  let p := get_PS2_ScanCode buf
  let scanCode := p.1
  let buf1 := p.2
  if scanCode ≠ 0 then
    let r := scanCodeCase fl scanCode
    let fl1 := r.1
    let a := r.2.1
    let b := r.2.2
    if a ≠ NO_SWITCH_ACTION ∨ b ≠ NO_SWITCH_ACTION then
      ((⟨false, false⟩ : KeyFlags), buf1,
        (if a ≠ NO_SWITCH_ACTION then [Call.mk (!fl1.key_release) a] else []) ++
        (if b ≠ NO_SWITCH_ACTION then [Call.mk (!fl1.key_release) b] else []))
    else (fl1, buf1, [])
  else (fl, buf1, [])

/-- Invoke the interpreter n times in sequence, concatenating the calls. -/
def runInterp : KeyFlags → PS2Buf → Nat → KeyFlags × PS2Buf × List Call
  | fl, buf, 0 => (fl, buf, [])
  | fl, buf, n + 1 =>
    let r := process_PS2_ScanCode fl buf
    let q := runInterp r.1 r.2.1 n
    (q.1, q.2.1, r.2.2 ++ q.2.2)

/-- C4 counterexample: scan code 0x69 (keypad 1) is not one of the three
sentinel codes, yet when it arrives while the extended flag is set, its
case takes the guarded no-action path, which neither acts nor clears the
flags, so both sticky flags survive the invocation. -/
theorem C4_counterexample :
    ¬ ((0x69 : Nat) = 0xF0 ∨ (0x69 : Nat) = 0xE0 ∨ (0x69 : Nat) = 0xE1) ∧
    (process_PS2_ScanCode ⟨true, true⟩ (PS2_Buffer_push emptyPS2Buf 0x69)).1 ≠ ⟨false, false⟩ := by
  decide

/-- C4 amended: for every nonzero scan code other than the three sentinel
codes 0xF0, 0xE0, 0xE1, both sticky flags are cleared by the end of the
invocation UNLESS the code is one of the nine keypad codes guarded by the
extended flag (0x69, 0x72, 0x7A, 0x12, 0x6C, 0x75, 0x7D, 0x70, 0x71) and
the extended flag is set, in which case both flags keep their prior
values. -/
theorem C4_flag_clearing :
    ∀ c, c < 256 → ¬ (c = 0xF0 ∨ c = 0xE0 ∨ c = 0xE1) → c ≠ 0 →
    ∀ r e : Bool,
      (process_PS2_ScanCode ⟨r, e⟩ (PS2_Buffer_push emptyPS2Buf c)).1 =
        (if (c = 0x69 ∨ c = 0x72 ∨ c = 0x7A ∨ c = 0x12 ∨ c = 0x6C ∨ c = 0x75 ∨ c = 0x7D ∨
             c = 0x70 ∨ c = 0x71) ∧ e = true then ⟨r, e⟩ else ⟨false, false⟩) := by
  decide

/-- C4 witness: the amended flag-clearing theorem applied to scan code
0x16 with both flags previously set. -/
theorem C4_flag_clearing_witness :
    (0x16 : Nat) < 256 ∧
    ¬ ((0x16 : Nat) = 0xF0 ∨ (0x16 : Nat) = 0xE0 ∨ (0x16 : Nat) = 0xE1) ∧
    (0x16 : Nat) ≠ 0 ∧
    (process_PS2_ScanCode ⟨true, true⟩ (PS2_Buffer_push emptyPS2Buf 0x16)).1 =
      (if ((0x16 : Nat) = 0x69 ∨ (0x16 : Nat) = 0x72 ∨ (0x16 : Nat) = 0x7A ∨
           (0x16 : Nat) = 0x12 ∨ (0x16 : Nat) = 0x6C ∨ (0x16 : Nat) = 0x75 ∨
           (0x16 : Nat) = 0x7D ∨ (0x16 : Nat) = 0x70 ∨ (0x16 : Nat) = 0x71) ∧ true = true
       then ⟨true, true⟩ else ⟨false, false⟩) :=
  ⟨by decide, by decide, by decide,
   C4_flag_clearing 0x16 (by decide) (by decide) (by decide) true true⟩

/-- C5: scan code 0x6B resolves to the keypad 4 switch address pair when
the extended flag is clear and to the LEFT arrow pair after an extended
sentinel byte (0xE0 or 0xE1); scan code 0x74 resolves to the keypad 6 pair
when clear and to the single RIGHT arrow address after an extended
sentinel byte. -/
theorem C5_ambiguous_codes :
    ((runInterp ⟨false, false⟩ (PS2_Buffer_push emptyPS2Buf 0x6B) 1).2.2 =
       [⟨true, Switch_4_a⟩, ⟨true, Switch_4_b⟩]) ∧
    ((runInterp ⟨false, false⟩ (pushList emptyPS2Buf [0xE0, 0x6B]) 2).2.2 =
       [⟨true, Switch_LEFT_a⟩, ⟨true, Switch_LEFT_b⟩]) ∧
    ((runInterp ⟨false, false⟩ (pushList emptyPS2Buf [0xE1, 0x6B]) 2).2.2 =
       [⟨true, Switch_LEFT_a⟩, ⟨true, Switch_LEFT_b⟩]) ∧
    ((runInterp ⟨false, false⟩ (PS2_Buffer_push emptyPS2Buf 0x74) 1).2.2 =
       [⟨true, Switch_6_a⟩, ⟨true, Switch_6_b⟩]) ∧
    ((runInterp ⟨false, false⟩ (pushList emptyPS2Buf [0xE0, 0x74]) 2).2.2 =
       [⟨true, Switch_RIGHT⟩]) ∧
    ((runInterp ⟨false, false⟩ (pushList emptyPS2Buf [0xE1, 0x74]) 2).2.2 =
       [⟨true, Switch_RIGHT⟩]) := by
  decide

/-- C6: feeding the release sentinel 0xF0 and then any scan code whose
case (with the release flag set and the extended flag clear) yields two
valid switch addresses a and b makes the interpreter emit exactly the two
calls with state false on a and b, and both sticky flags are clear
afterwards. -/
theorem C6_release_semantics (code a b : Nat)
    (hcase : scanCodeCase ⟨true, false⟩ code = (⟨true, false⟩, a, b))
    (ha : a ≠ NO_SWITCH_ACTION) (hb : b ≠ NO_SWITCH_ACTION) (hc : code ≠ 0) :
    (runInterp ⟨false, false⟩ (pushList emptyPS2Buf [0xF0, code]) 2).2.2 =
      [⟨false, a⟩, ⟨false, b⟩] ∧
    (runInterp ⟨false, false⟩ (pushList emptyPS2Buf [0xF0, code]) 2).1 = ⟨false, false⟩ := by
  have scanF0 : scanCodeCase ⟨false, false⟩ 0xF0 =
      (⟨true, false⟩, NO_SWITCH_ACTION, NO_SWITCH_ACTION) := rfl
  simp [runInterp, process_PS2_ScanCode, pushList, PS2_Buffer_push, get_PS2_ScanCode,
    emptyPS2Buf, PS2_ScanCodeBuffer_Size, scanF0, hcase, hc, ha, hb]

/-- C6 witness: the release theorem applied to the letter Q, scan code
0x15 with addresses Switch_Q_a and Switch_Q_b. -/
theorem C6_release_semantics_witness :
    scanCodeCase ⟨true, false⟩ 0x15 = (⟨true, false⟩, Switch_Q_a, Switch_Q_b) ∧
    Switch_Q_a ≠ NO_SWITCH_ACTION ∧ Switch_Q_b ≠ NO_SWITCH_ACTION ∧ (0x15 : Nat) ≠ 0 ∧
    ((runInterp ⟨false, false⟩ (pushList emptyPS2Buf [0xF0, 0x15]) 2).2.2 =
       [⟨false, Switch_Q_a⟩, ⟨false, Switch_Q_b⟩] ∧
     (runInterp ⟨false, false⟩ (pushList emptyPS2Buf [0xF0, 0x15]) 2).1 = ⟨false, false⟩) :=
  ⟨by decide, by decide, by decide, by decide,
   C6_release_semantics 0x15 Switch_Q_a Switch_Q_b (by decide) (by decide) (by decide) (by decide)⟩

/-- C9: the consumer returns 0 both for an empty buffer and for a dequeued
0x00 byte. A validly framed scan code 0x00 is accepted by the decoder and
enqueued (End becomes 1), the dequeue returns 0 while consuming it (Start
advances to 1), and the interpreter invoked on that buffer issues no
driver calls and leaves both sticky flags unchanged, exactly as it does on
an empty buffer. -/
theorem C9_zero_byte :
    (get_PS2_ScanCode emptyPS2Buf).1 = 0 ∧
    (runFrame (frameOfByte 0) initPS2Dec emptyPS2Buf).2.endIdx = 1 ∧
    (get_PS2_ScanCode (runFrame (frameOfByte 0) initPS2Dec emptyPS2Buf).2).1 = 0 ∧
    (get_PS2_ScanCode (runFrame (frameOfByte 0) initPS2Dec emptyPS2Buf).2).2.start = 1 ∧
    (∀ r e : Bool,
      (process_PS2_ScanCode ⟨r, e⟩ (runFrame (frameOfByte 0) initPS2Dec emptyPS2Buf).2).1 = ⟨r, e⟩ ∧
      (process_PS2_ScanCode ⟨r, e⟩ (runFrame (frameOfByte 0) initPS2Dec emptyPS2Buf).2).2.2 = [] ∧
      (process_PS2_ScanCode ⟨r, e⟩ (runFrame (frameOfByte 0) initPS2Dec emptyPS2Buf).2).2.1.start = 1 ∧
      (process_PS2_ScanCode ⟨r, e⟩ emptyPS2Buf).1 = ⟨r, e⟩ ∧
      (process_PS2_ScanCode ⟨r, e⟩ emptyPS2Buf).2.2 = []) := by
  decide
